import Mathlib

/-!
Shallow embedding of `predict.py` from the `cog-flux-dev-lora-stream`
repository: a prediction-serving wrapper around a text-to-image diffusion
pipeline.  The diffusion pipeline and the safety classifier are external
black boxes; they are modelled as function parameters (`pipeFn`,
`classify`).  Everything the repository itself computes — the aspect-ratio
lookup, the adapter-reference dispatch (three regular-expression rules),
the seed fallback, the generation/filter/save loop, the weight
provisioner, and the adapter attach/detach state — is translated directly
from the source.
-/

/-! ## Aspect-ratio table (`Predictor.aspect_ratio_to_width_height`) -/

/-- Direct translation of the dictionary lookup in
`aspect_ratio_to_width_height`: `aspect_ratios.get(aspect_ratio)` returns
the pair for a known key and `None` otherwise. -/
def aspect_ratio_to_width_height (s : String) : Option (Nat × Nat) :=
  if s = "1:1" then some (1024, 1024)
  else if s = "16:9" then some (1344, 768)
  else if s = "21:9" then some (1536, 640)
  else if s = "3:2" then some (1216, 832)
  else if s = "2:3" then some (832, 1216)
  else if s = "4:5" then some (896, 1088)
  else if s = "5:4" then some (1088, 896)
  else if s = "9:16" then some (768, 1344)
  else if s = "9:21" then some (640, 1536)
  else none

/-- The `choices` list of the `aspect_ratio` request parameter: the serving
framework rejects any value outside this list before the predict body
runs. -/
def aspectRatioChoices : List String :=
  ["1:1", "16:9", "21:9", "2:3", "3:2", "4:5", "5:4", "9:16", "9:21"]

/-- The `choices` list of the `output_format` request parameter. -/
def outputFormatChoices : List String := ["webp", "jpg", "png"]

/-! ## Character-level matchers for the adapter-reference regexes -/

/-- The character class `[a-zA-Z0-9_-]` used by the adapter-reference
regexes. -/
def isSlugChar (c : Char) : Bool :=
  c.isAlpha || c.isDigit || c = '_' || c = '-'

/-- `wildMatchRest pat cs` matches the pattern `pat` against a prefix of
`cs` and returns the unmatched remainder.  The pattern character `?`
stands for the regex wildcard `.` (matching any character); every other
pattern character matches only itself.  None of the literal characters in
the source regexes is `?`, so this encoding is faithful. -/
def wildMatchRest : List Char → List Char → Option (List Char)
  | [], cs => some cs
  | _ :: _, [] => none
  | p :: ps, c :: cs => if p = '?' || p = c then wildMatchRest ps cs else none

/-- `allSlug cs` holds when every character of `cs` is in `[a-zA-Z0-9_-]`. -/
def allSlug : List Char → Bool
  | [] => true
  | c :: cs => isSlugChar c && allSlug cs

/-- One-or-more slug characters running to the end of the input: the
`[a-zA-Z0-9_-]+$` tail of rule 1. -/
def r1Second : List Char → Bool
  | [] => false
  | c :: cs => isSlugChar c && allSlug cs

/-- Continuation of the first segment of rule 1: zero or more further slug
characters, then `/`, then `r1Second`.  Because `/` is not a slug
character the regex parse is deterministic. -/
def r1Tail : List Char → Bool
  | [] => false
  | c :: cs => if c = '/' then r1Second cs else isSlugChar c && r1Tail cs

/-- Rule 1 of the adapter resolver:
`re.match(r"^[a-zA-Z0-9_-]+/[a-zA-Z0-9_-]+$", hf_lora)`. -/
def matchR1 (s : String) : Bool :=
  match s.data with
  | [] => false
  | c :: cs => isSlugChar c && r1Tail cs

/-- The pattern `http://huggingface.co` with the unescaped regex dot
encoded as the wildcard `?`. -/
def r2PatHttp : List Char :=
  ['h', 't', 't', 'p', ':', '/', '/',
   'h', 'u', 'g', 'g', 'i', 'n', 'g', 'f', 'a', 'c', 'e', '?', 'c', 'o']

/-- The pattern `https://huggingface.co` with the unescaped regex dot
encoded as the wildcard `?`. -/
def r2PatHttps : List Char :=
  ['h', 't', 't', 'p', 's', ':', '/', '/',
   'h', 'u', 'g', 'g', 'i', 'n', 'g', 'f', 'a', 'c', 'e', '?', 'c', 'o']

/-- Rule 2 of the adapter resolver:
`re.match(r"^https?://huggingface.co", hf_lora)` — an unanchored-at-the-end
prefix match; `https?` is split into its two alternatives (a string cannot
match both, since the fifth character is `:` in one and `s` in the
other). -/
def matchR2 (s : String) : Bool :=
  (wildMatchRest r2PatHttp s.data).isSome || (wildMatchRest r2PatHttps s.data).isSome

/-- The literal prefix `http://`. -/
def patHttpSlashes : List Char := ['h', 't', 't', 'p', ':', '/', '/']

/-- The literal prefix `https://`. -/
def patHttpsSlashes : List Char := ['h', 't', 't', 'p', 's', ':', '/', '/']

/-- The literal suffix `.safetensors` (the regex `\.` is an escaped,
literal dot). -/
def patDotSafetensors : List Char :=
  ['.', 's', 'a', 'f', 'e', 't', 'e', 'n', 's', 'o', 'r', 's']

/-- The literal suffix `.tar`. -/
def patDotTar : List Char := ['.', 't', 'a', 'r']

/-- First alternative of rule 3:
`re.match(r"^https?://.*\.(safetensors|tar)$", hf_lora)`.  A string
matches exactly when it starts with `http://` or `https://` and ends with
`.safetensors` or `.tar`: the `.*` between them can always be chosen,
because no character of the prefixes equals `.` so the suffix cannot
overlap the prefix. -/
def matchR3a (s : String) : Bool :=
  ((wildMatchRest patHttpSlashes s.data).isSome ||
    (wildMatchRest patHttpsSlashes s.data).isSome) &&
  (patDotSafetensors.isSuffixOf s.data || patDotTar.isSuffixOf s.data)

/-- The pattern `http://replicate.delivery/` with the unescaped regex dot
encoded as the wildcard `?`. -/
def r3bPatHttp : List Char :=
  ['h', 't', 't', 'p', ':', '/', '/',
   'r', 'e', 'p', 'l', 'i', 'c', 'a', 't', 'e', '?',
   'd', 'e', 'l', 'i', 'v', 'e', 'r', 'y', '/']

/-- The pattern `https://replicate.delivery/` with the unescaped regex dot
encoded as the wildcard `?`. -/
def r3bPatHttps : List Char :=
  ['h', 't', 't', 'p', 's', ':', '/', '/',
   'r', 'e', 'p', 'l', 'i', 'c', 'a', 't', 'e', '?',
   'd', 'e', 'l', 'i', 'v', 'e', 'r', 'y', '/']

/-- The pattern `trained_model.tar` with the unescaped regex dot encoded
as the wildcard `?`; the enclosing `re.match` is not end-anchored, so this
is a prefix match on the remainder. -/
def r3bPatTrained : List Char :=
  ['t', 'r', 'a', 'i', 'n', 'e', 'd', '_', 'm', 'o', 'd', 'e', 'l', '?',
   't', 'a', 'r']

/-- After the second `/`-terminated slug segment of rule 3b: the literal
`trained_model.tar` prefix, then anything. -/
def r3bTail2 : List Char → Bool
  | [] => false
  | c :: cs =>
    if c = '/' then (wildMatchRest r3bPatTrained cs).isSome
    else isSlugChar c && r3bTail2 cs

/-- Second slug segment of rule 3b: one or more slug characters, then
`/trained_model.tar...`. -/
def r3bSeg2 : List Char → Bool
  | [] => false
  | c :: cs => isSlugChar c && r3bTail2 cs

/-- After the first slug segment of rule 3b: continue the segment or cross
the `/` into the second segment. -/
def r3bTail1 : List Char → Bool
  | [] => false
  | c :: cs => if c = '/' then r3bSeg2 cs else isSlugChar c && r3bTail1 cs

/-- First slug segment of rule 3b: one or more slug characters, then the
second segment. -/
def r3bSeg1 : List Char → Bool
  | [] => false
  | c :: cs => isSlugChar c && r3bTail1 cs

/-- Second alternative of rule 3:
`re.match(r"^https?://replicate.delivery/[a-zA-Z0-9_-]+/[a-zA-Z0-9_-]+/trained_model.tar", hf_lora)`,
an unanchored-at-the-end prefix match. -/
def matchR3b (s : String) : Bool :=
  match wildMatchRest r3bPatHttp s.data with
  | some rest => r3bSeg1 rest
  | none =>
    match wildMatchRest r3bPatHttps s.data with
    | some rest => r3bSeg1 rest
    | none => false

/-! ## Adapter-reference resolution (`predict`, `hf_lora` branch) -/

/-- `containsSub pat cs` holds when `pat` occurs as a contiguous substring
of `cs`; it models Python's `'...' in hf_lora` membership test. -/
def containsSub (pat : List Char) : List Char → Bool
  | [] => pat.isPrefixOf []
  | c :: cs => pat.isPrefixOf (c :: cs) || containsSub pat cs

/-- The literal substring `replicate.delivery` of the Python expression
`'replicate.delivery' in hf_lora` (a plain substring test, not a regex). -/
def patReplicateDelivery : List Char :=
  ['r', 'e', 'p', 'l', 'i', 'c', 'a', 't', 'e', '.',
   'd', 'e', 'l', 'i', 'v', 'e', 'r', 'y']

/-- `file_extension = 'tar' if hf_lora.endswith('.tar') or
'replicate.delivery' in hf_lora else 'safetensors'`. -/
def file_extension (s : String) : String :=
  if patDotTar.isSuffixOf s.data || containsSub patReplicateDelivery s.data
  then "tar" else "safetensors"

/-- `weight_name = hf_lora.split('/')[-1]`: the last `/`-separated
component (Python's `str.split` on a non-empty separator never returns an
empty list, so indexing `[-1]` is total). -/
def weight_name (s : String) : String := (s.splitOn "/").getLastD ""

/-- Extraction of the capture group of
`re.search(r"^https?://huggingface.co/([a-zA-Z0-9_-]+/[a-zA-Z0-9_-]+)", hf_lora)`
after the `https?://huggingface.co/` prefix has been consumed: a greedy
slug segment, a `/`, and a second greedy slug segment, each non-empty.
`none` models a failed search, on which the source's `.group(1)` raises. -/
def hfSlugFrom (rest : List Char) : Option String :=
  match rest with
  | '/' :: rest1 =>
    let a := rest1.takeWhile isSlugChar
    let r1 := rest1.dropWhile isSlugChar
    if a.isEmpty then none
    else
      match r1 with
      | '/' :: rest2 =>
        let b := rest2.takeWhile isSlugChar
        if b.isEmpty then none else some (String.mk (a ++ '/' :: b))
      | _ => none
  | _ => none

/-- The slug captured from a `huggingface.co` URL, or `none` when the URL
has no `owner/name` path (making the source crash on `.group(1)`). -/
def hfUrlSlug (s : String) : Option String :=
  match wildMatchRest r2PatHttp s.data with
  | some rest => hfSlugFrom rest
  | none =>
    match wildMatchRest r2PatHttps s.data with
    | some rest => hfSlugFrom rest
    | none => none

/-- The action the `hf_lora` branch of `predict` selects.  `loadRegistry`
is `load_lora_weights(hf_lora)` on a registry slug (rule 1); `loadHfUrl`
is `load_lora_weights(slug, weight_name=...)` (rule 2); `downloadUrl` is
the `download_weights`/extract path (rule 3); `attributeErrorCrash`
models `.group(1)` raising on a `huggingface.co` URL with no slug path;
`invalid` is the final `raise Exception(...)`; `unloadPrevious` is the
`else` branch (`hf_lora is None`), which calls `unload_lora_weights`. -/
inductive LoraAction where
  | loadRegistry (slug : String)
  | loadHfUrl (slug : String) (weightName : String)
  | downloadUrl (url : String) (ext : String)
  | attributeErrorCrash
  | invalid (msg : String)
  | unloadPrevious
  deriving DecidableEq, Repr

/-- The message of the validation failure raised when no rule matches. -/
def invalidLoraMsg : String :=
  "Invalid parameter for hf_lora, must be a HuggingFace path/URL, or URL to a .safetensors/.tar file"

/-- The adapter-reference dispatch of `predict`, lines 145-184: the three
rules tried in source order, the final `raise`, and the no-reference
unload branch. -/
def resolveHfLora : Option String → LoraAction
  | none => .unloadPrevious
  | some s =>
    if matchR1 s then .loadRegistry s
    else if matchR2 s then
      match hfUrlSlug s with
      | some slug => .loadHfUrl slug (weight_name s)
      | none => .attributeErrorCrash
    else if matchR3a s || matchR3b s then .downloadUrl s (file_extension s)
    else .invalid invalidLoraMsg

/-- Whether the selected action reaches out to the network (registry
fetches and URL downloads do; the raising branches and the unload branch
perform no fetch). -/
def loraActionTouchesNetwork : LoraAction → Bool
  | .loadRegistry _ => true
  | .loadHfUrl _ _ => true
  | .downloadUrl _ _ => true
  | .attributeErrorCrash => false
  | .invalid _ => false
  | .unloadPrevious => false

/-- Whether the selected action raises instead of proceeding to
generation. -/
def loraActionIsError : LoraAction → Bool
  | .attributeErrorCrash => true
  | .invalid _ => true
  | _ => false

/-! ## The request record and its boundary validation -/

/-- The parameters of `Predictor.predict`, as declared by its `Input`
fields.  `seed = none` models the Python default `None`; the seed is an
integer with no declared bounds.  Floating-point sliders
(`guidance_scale`, `lora_scale`) are carried as rationals: the request
only passes them through to the external pipeline. -/
structure PredictInputs where
  prompt : String
  aspect_ratio : String
  num_outputs : Nat
  num_inference_steps : Nat
  guidance_scale : Rat
  seed : Option Int
  output_format : String
  output_quality : Nat
  hf_lora : Option String
  lora_scale : Rat
  disable_safety_checker : Bool

/-- The boundary validation the serving framework performs from the
`Input` declarations (`choices`, `ge`, `le`) before the predict body
runs. -/
def validRequest (p : PredictInputs) : Bool :=
  decide (p.aspect_ratio ∈ aspectRatioChoices) &&
  decide (1 ≤ p.num_outputs) && decide (p.num_outputs ≤ 4) &&
  decide (1 ≤ p.num_inference_steps) && decide (p.num_inference_steps ≤ 50) &&
  decide (0 ≤ p.guidance_scale) && decide (p.guidance_scale ≤ 10) &&
  decide (p.output_format ∈ outputFormatChoices) &&
  decide (p.output_quality ≤ 100) &&
  decide (0 ≤ p.lora_scale) && decide (p.lora_scale ≤ 1)

/-! ## Seed selection -/

/-- `int.from_bytes(b, "big")` on the two bytes drawn from `os.urandom(2)`. -/
def int_from_bytes_big (b1 b2 : Nat) : Nat := b1 * 256 + b2

/-- Lines 131-132: `if seed is None: seed = int.from_bytes(os.urandom(2), "big")`.
An explicit seed is used unchanged; otherwise the fallback is derived from
the two process-random bytes `b1`, `b2`. -/
def effectiveSeed (seed : Option Int) (b1 b2 : Nat) : Int :=
  match seed with
  | some s => s
  | none => (int_from_bytes_big b1 b2 : Nat)

/-! ## The generation loop, safety filter and output writer -/

/-- The arguments `predict` passes to the diffusion pipeline on every
iteration: the prompt, the resolved width/height, the sampling
parameters, the fixed `max_sequence_length = 512`, and
`joint_attention_kwargs` (the adapter blend scale, or `None` when no
adapter reference was given). -/
structure PipeArgs where
  prompt : String
  width : Nat
  height : Nat
  guidance_scale : Rat
  num_inference_steps : Nat
  max_sequence_length : Nat
  joint_attention_scale : Option Rat

/-- The pipeline arguments built by `predict` once `width`/`height` have
been resolved. -/
def predictPipeArgs (p : PredictInputs) (w h : Nat) : PipeArgs :=
  ⟨p.prompt, w, h, p.guidance_scale, p.num_inference_steps, 512,
    if p.hf_lora.isSome then some p.lora_scale else none⟩

/-- The `image_generator` loop: `num_outputs` successive calls to the
pipeline, all sharing the single generator seeded once per request.  The
external pipeline is the parameter `pipeFn`, a function from the call
arguments and the current generator state to an image and the advanced
generator state. -/
def genImages {Image : Type} (pipeFn : PipeArgs → Int → Image × Int)
    (args : PipeArgs) : Nat → Int → List Image
  | 0, _ => []
  | n + 1, st => (pipeFn args st).1 :: genImages pipeFn args n (pipeFn args st).2

/-- The serialized form of one written file.  `image.save(path,
quality=output_quality, optimize=True)` for non-`png` formats records the
quality and the optimize flag; the `png` branch calls `image.save(path)`
with no quality argument at all, so the written bytes cannot depend on
`output_quality`. -/
inductive SavedImage (Image : Type) where
  | lossyFile (img : Image) (quality : Nat) (optimize : Bool)
  | losslessFile (img : Image)
  deriving DecidableEq

/-- Lines 209-212: the branch on `output_format != 'png'`. -/
def saveImage {Image : Type} (img : Image) (fmt : String) (quality : Nat) :
    SavedImage Image :=
  if fmt ≠ "png" then .lossyFile img quality true else .losslessFile img

/-- One file written to scratch storage and yielded to the caller. -/
structure OutFile (Image : Type) where
  path : String
  content : SavedImage Image

/-- The output path `f"/tmp/out-{safe_images_count}.{output_format}"`. -/
def outPath (fmt : String) (k : Nat) : String :=
  "/tmp/out-" ++ toString k ++ "." ++ fmt

/-- The filter-and-save loop over the generated images, lines 200-215:
when the safety checker is enabled and flags an image the iteration is
skipped (`continue`), otherwise the image is saved under the index
`safe_images_count`, which counts accepted images only. -/
def filterAndSave {Image : Type} (classify : Image → Bool) (disable : Bool)
    (fmt : String) (q : Nat) : List Image → Nat → List (OutFile Image)
  | [], _ => []
  | img :: rest, safeCount =>
    if !disable && classify img then
      filterAndSave classify disable fmt q rest safeCount
    else
      ⟨outPath fmt safeCount, saveImage img fmt q⟩ ::
        filterAndSave classify disable fmt q rest (safeCount + 1)

/-! ## The whole request -/

/-- The ways a request can fail.  `validationError` is the framework
rejection of an out-of-bounds or out-of-choices parameter;
`typeErrorNoneUnpack` is the crash `predict` would suffer unpacking
`None` from the aspect-ratio lookup (unreachable after validation);
`invalidLora` and `attributeErrorCrash` come from the adapter branch;
`allFiltered` is the final `raise` when `safe_images_count == 0`. -/
inductive PredictError where
  | validationError
  | typeErrorNoneUnpack
  | invalidLora (msg : String)
  | attributeErrorCrash
  | allFiltered
  deriving DecidableEq

/-- The message of the all-outputs-filtered failure. -/
def allFilteredMsg : String :=
  "NSFW content detected in all images. Try running it again, or try a different prompt."

/-- One full `predict` request, from boundary validation to the yielded
list of written files.  `pipeFn` and `classify` model the external
diffusion pipeline and safety classifier; `b1`, `b2` are the two
`os.urandom` bytes consulted when no explicit seed is given.  A request
whose images are all filtered raises after the loop, having written no
file, so the error result carries no outputs. -/
def runPredict {Image : Type} (pipeFn : PipeArgs → Int → Image × Int)
    (classify : Image → Bool) (p : PredictInputs) (b1 b2 : Nat) :
    Except PredictError (List (OutFile Image)) :=
  if validRequest p = false then .error .validationError
  else
    match aspect_ratio_to_width_height p.aspect_ratio with
    | none => .error .typeErrorNoneUnpack
    | some (w, h) =>
      match resolveHfLora p.hf_lora with
      | .invalid _ => .error (.invalidLora invalidLoraMsg)
      | .attributeErrorCrash => .error .attributeErrorCrash
      | _ =>
        let images := genImages pipeFn (predictPipeArgs p w h) p.num_outputs
          (effectiveSeed p.seed b1 b2)
        let outs := filterAndSave classify p.disable_safety_checker
          p.output_format p.output_quality images 0
        if outs.isEmpty then .error .allFiltered else .ok outs

/-! ## Adapter attach/detach state across a request -/

/-- How a request terminates in the adapter state machine: normal
completion, a raised invalid-reference / failed-load error before the
loop, an exception escaping the generation loop, or the all-filtered
error raised after the loop. -/
inductive ReqOutcome where
  | ok
  | errLoad
  | errGen
  | errAllFiltered
  deriving DecidableEq, Repr

/-- The adapter state of the pipeline handle across one request, traced
from the source order of effects: with `hf_lora` present and a successful
resolution/load (`loadOk`), `load_lora_weights` attaches the adapter
before the loop; with `hf_lora` absent, `unload_lora_weights` detaches
any previous adapter before the loop; an exception escaping the loop
(`genRaises`) skips the unload at lines 218-219, leaving the adapter
attached; on normal loop exit that unload runs (when `hf_lora` was
given) before the `safe_images_count == 0` check raises the all-filtered
error.  The result is the adapter attached after the request and the
request outcome. -/
def requestAdapterTrace (prev : Option String) (hf : Option String)
    (loadOk : Bool) (genRaises : Bool) (allFlagged : Bool) :
    Option String × ReqOutcome :=
  match hf with
  | none =>
    if genRaises then (none, .errGen)
    else if allFlagged then (none, .errAllFiltered)
    else (none, .ok)
  | some s =>
    if loadOk then
      if genRaises then (some s, .errGen)
      else if allFlagged then (none, .errAllFiltered)
      else (none, .ok)
    else (prev, .errLoad)

/-! ## Weight provisioner (`download_weights` and its guard in `setup`) -/

/-- Outcome of provisioning one weight bundle. -/
inductive ProvisionResult where
  | skippedExisting
  | downloadedFresh
  deriving DecidableEq, Repr

/-- `download_weights` invokes the download tool once through
`subprocess.check_call`, which raises `CalledProcessError` exactly when
the tool exits non-zero.  `attempts k` is the exit code the tool would
return on its `k`-th invocation; the source invokes it a single time, so
only `attempts 0` is consulted. -/
def download_weights (attempts : Nat → Nat) : Except Nat Unit :=
  if attempts 0 = 0 then .ok () else .error (attempts 0)

/-- The provisioning pattern of `setup`, lines 48-49 and 56-57:
`if not os.path.exists(dest): download_weights(url, dest)` — fetch and
unpack only when the destination directory does not already exist. -/
def ensure_weights (destExists : Bool) (attempts : Nat → Nat) :
    Except Nat ProvisionResult :=
  if destExists then .ok .skippedExisting
  else
    match download_weights attempts with
    | .ok _ => .ok .downloadedFresh
    | .error c => .error c

/-! ## Helper lemmas: characters admitted by the matchers -/

lemma allSlug_mem {cs : List Char} (h : allSlug cs = true) :
    ∀ c ∈ cs, isSlugChar c = true := by
  induction cs with
  | nil => intro c hc; cases hc
  | cons a as ih =>
    intro c hc
    simp only [allSlug, Bool.and_eq_true] at h
    rcases List.mem_cons.mp hc with hc | hc
    · exact hc ▸ h.1
    · exact ih h.2 c hc

lemma r1Second_mem {cs : List Char} (h : r1Second cs = true) :
    ∀ c ∈ cs, isSlugChar c = true := by
  cases cs with
  | nil => intro c hc; cases hc
  | cons a as =>
    simp only [r1Second, Bool.and_eq_true] at h
    intro c hc
    rcases List.mem_cons.mp hc with hc | hc
    · exact hc ▸ h.1
    · exact allSlug_mem h.2 c hc

lemma r1Tail_mem {cs : List Char} (h : r1Tail cs = true) :
    ∀ c ∈ cs, isSlugChar c = true ∨ c = '/' := by
  induction cs with
  | nil => intro c hc; cases hc
  | cons a as ih =>
    intro c hc
    simp only [r1Tail] at h
    by_cases ha : a = '/'
    · rw [if_pos ha] at h
      rcases List.mem_cons.mp hc with hc | hc
      · exact Or.inr (hc ▸ ha)
      · exact Or.inl (r1Second_mem h c hc)
    · rw [if_neg ha] at h
      simp only [Bool.and_eq_true] at h
      rcases List.mem_cons.mp hc with hc | hc
      · exact Or.inl (hc ▸ h.1)
      · exact ih h.2 c hc

lemma matchR1_mem {s : String} (h : matchR1 s = true) :
    ∀ c ∈ s.data, isSlugChar c = true ∨ c = '/' := by
  intro c hc
  unfold matchR1 at h
  cases hd : s.data with
  | nil => rw [hd] at hc; cases hc
  | cons a as =>
    rw [hd] at h hc
    simp only [Bool.and_eq_true] at h
    rcases List.mem_cons.mp hc with hc | hc
    · exact Or.inl (hc ▸ h.1)
    · exact r1Tail_mem h.2 c hc

lemma wildMatchRest_mem {pat l r : List Char} (h : wildMatchRest pat l = some r) :
    ∀ p ∈ pat, p = '?' ∨ p ∈ l := by
  induction pat generalizing l with
  | nil => intro p hp; cases hp
  | cons a as ih =>
    cases l with
    | nil => cases h
    | cons c cs =>
      simp only [wildMatchRest] at h
      by_cases hac : (a = '?' || a = c) = true
      · rw [if_pos hac] at h
        intro p hp
        rcases List.mem_cons.mp hp with hp | hp
        · subst hp
          rcases Bool.or_eq_true_iff.mp hac with h1 | h1
          · exact Or.inl (by simpa using h1)
          · exact Or.inr (by simp [show p = c from by simpa using h1])
        · rcases ih h p hp with h1 | h1
          · exact Or.inl h1
          · exact Or.inr (List.mem_cons_of_mem _ h1)
      · rw [if_neg hac] at h; cases h

lemma colon_of_matchR2 {s : String} (h : matchR2 s = true) : ':' ∈ s.data := by
  unfold matchR2 at h
  rcases Bool.or_eq_true_iff.mp h with h1 | h1 <;>
  · obtain ⟨r, hr⟩ := Option.isSome_iff_exists.mp h1
    rcases wildMatchRest_mem hr ':' (by decide) with h2 | h2
    · cases h2
    · exact h2

lemma colon_of_matchR3a {s : String} (h : matchR3a s = true) : ':' ∈ s.data := by
  unfold matchR3a at h
  simp only [Bool.and_eq_true] at h
  rcases Bool.or_eq_true_iff.mp h.1 with h1 | h1 <;>
  · obtain ⟨r, hr⟩ := Option.isSome_iff_exists.mp h1
    rcases wildMatchRest_mem hr ':' (by decide) with h2 | h2
    · cases h2
    · exact h2

lemma colon_of_matchR3b {s : String} (h : matchR3b s = true) : ':' ∈ s.data := by
  unfold matchR3b at h
  cases h1 : wildMatchRest r3bPatHttp s.data with
  | some r =>
    rcases wildMatchRest_mem h1 ':' (by decide) with h2 | h2
    · cases h2
    · exact h2
  | none =>
    rw [h1] at h
    cases h2 : wildMatchRest r3bPatHttps s.data with
    | some r =>
      rcases wildMatchRest_mem h2 ':' (by decide) with h3 | h3
      · cases h3
      · exact h3
    | none => rw [h2] at h; cases h

lemma matchR1_not_url {s : String} (h : matchR1 s = true) :
    matchR2 s = false ∧ matchR3a s = false ∧ matchR3b s = false := by
  refine ⟨?_, ?_, ?_⟩
  · cases hb : matchR2 s
    · rfl
    · rcases matchR1_mem h ':' (colon_of_matchR2 hb) with h3 | h3
      · cases h3
      · cases h3
  · cases hb : matchR3a s
    · rfl
    · rcases matchR1_mem h ':' (colon_of_matchR3a hb) with h3 | h3
      · cases h3
      · cases h3
  · cases hb : matchR3b s
    · rfl
    · rcases matchR1_mem h ':' (colon_of_matchR3b hb) with h3 | h3
      · cases h3
      · cases h3

/-! ## Helper lemmas: the generation/filter/save loop -/

lemma genImages_length {Image : Type} (pipeFn : PipeArgs → Int → Image × Int)
    (args : PipeArgs) : ∀ (n : Nat) (st : Int), (genImages pipeFn args n st).length = n := by
  intro n
  induction n with
  | zero => intro st; rfl
  | succ m ih => intro st; simp [genImages, ih]

lemma filterAndSave_all_flagged {Image : Type} (classify : Image → Bool)
    (fmt : String) (q : Nat) :
    ∀ (imgs : List Image) (c : Nat), (∀ img ∈ imgs, classify img = true) →
      filterAndSave classify false fmt q imgs c = [] := by
  intro imgs
  induction imgs with
  | nil => intro c _; rfl
  | cons a as ih =>
    intro c hall
    have ha : classify a = true := hall a (List.mem_cons_self a as)
    simp only [filterAndSave, ha, Bool.not_false, Bool.true_and, if_pos]
    exact ih c fun img hm => hall img (List.mem_cons_of_mem a hm)

lemma filterAndSave_disabled_length {Image : Type} (classify : Image → Bool)
    (fmt : String) (q : Nat) :
    ∀ (imgs : List Image) (c : Nat),
      (filterAndSave classify true fmt q imgs c).length = imgs.length := by
  intro imgs
  induction imgs with
  | nil => intro c; rfl
  | cons a as ih =>
    intro c
    simp [filterAndSave, ih]

lemma filterAndSave_length_le {Image : Type} (classify : Image → Bool)
    (disable : Bool) (fmt : String) (q : Nat) :
    ∀ (imgs : List Image) (c : Nat),
      (filterAndSave classify disable fmt q imgs c).length ≤ imgs.length := by
  intro imgs
  induction imgs with
  | nil => intro c; exact Nat.le_refl 0
  | cons a as ih =>
    intro c
    by_cases hskip : (!disable && classify a) = true
    · simp only [filterAndSave, if_pos hskip]
      exact Nat.le_succ_of_le (ih c)
    · simp only [filterAndSave, if_neg hskip, List.length_cons]
      exact Nat.succ_le_succ (ih (c + 1))

lemma filterAndSave_paths {Image : Type} (classify : Image → Bool)
    (disable : Bool) (fmt : String) (q : Nat) :
    ∀ (imgs : List Image) (c : Nat),
      (filterAndSave classify disable fmt q imgs c).map OutFile.path =
        (List.range (filterAndSave classify disable fmt q imgs c).length).map
          (fun j => outPath fmt (c + j)) := by
  intro imgs
  induction imgs with
  | nil => intro c; rfl
  | cons a as ih =>
    intro c
    by_cases hskip : (!disable && classify a) = true
    · simp only [filterAndSave, if_pos hskip]
      exact ih c
    · simp only [filterAndSave, if_neg hskip, List.map_cons, List.length_cons,
        List.range_succ_eq_map, List.map_map]
      congr 1
      rw [ih (c + 1)]
      apply List.map_congr_left
      intro j _
      simp only [Function.comp_apply]
      congr 1
      omega

lemma runPredict_happy {Image : Type} (pipeFn : PipeArgs → Int → Image × Int)
    (classify : Image → Bool) (p : PredictInputs) (b1 b2 : Nat) (w h : Nat)
    (hv : validRequest p = true)
    (hwh : aspect_ratio_to_width_height p.aspect_ratio = some (w, h))
    (hl : loraActionIsError (resolveHfLora p.hf_lora) = false) :
    runPredict pipeFn classify p b1 b2 =
      (if (filterAndSave classify p.disable_safety_checker p.output_format
            p.output_quality
            (genImages pipeFn (predictPipeArgs p w h) p.num_outputs
              (effectiveSeed p.seed b1 b2)) 0).isEmpty
       then .error .allFiltered
       else .ok (filterAndSave classify p.disable_safety_checker p.output_format
            p.output_quality
            (genImages pipeFn (predictPipeArgs p w h) p.num_outputs
              (effectiveSeed p.seed b1 b2)) 0)) := by
  unfold runPredict
  rw [hv, hwh]
  simp only [Bool.true_eq_false, if_false]
  cases hres : resolveHfLora p.hf_lora <;>
    simp only [hres, loraActionIsError] at hl ⊢ <;> first | rfl | cases hl

/-! ## Helper lemmas: aspect-ratio lookup vs the choices list -/

lemma aspect_lookup_none_of_not_mem {s : String} (hs : s ∉ aspectRatioChoices) :
    aspect_ratio_to_width_height s = none := by
  unfold aspect_ratio_to_width_height
  split_ifs with h1 h2 h3 h4 h5 h6 h7 h8 h9
  all_goals first
    | rfl
    | (exfalso; apply hs; simp [aspectRatioChoices, *])

lemma validRequest_false_of_bad_aspect {p : PredictInputs}
    (hs : p.aspect_ratio ∉ aspectRatioChoices) : validRequest p = false := by
  unfold validRequest
  simp [hs]

/-- C1: the nine supported aspect-ratio strings resolve to exactly the
pairs of the fixed table; a string outside the nine-element choices list
resolves to nothing, and a request carrying it is rejected with a
validation error before the pipeline is ever consulted (the rejection is
the same for every pipeline and classifier). -/
theorem aspect_ratio_table_correct :
    (aspect_ratio_to_width_height "1:1" = some (1024, 1024) ∧
     aspect_ratio_to_width_height "16:9" = some (1344, 768) ∧
     aspect_ratio_to_width_height "21:9" = some (1536, 640) ∧
     aspect_ratio_to_width_height "3:2" = some (1216, 832) ∧
     aspect_ratio_to_width_height "2:3" = some (832, 1216) ∧
     aspect_ratio_to_width_height "4:5" = some (896, 1088) ∧
     aspect_ratio_to_width_height "5:4" = some (1088, 896) ∧
     aspect_ratio_to_width_height "9:16" = some (768, 1344) ∧
     aspect_ratio_to_width_height "9:21" = some (640, 1536)) ∧
    (∀ s : String, s ∉ aspectRatioChoices → aspect_ratio_to_width_height s = none) ∧
    (∀ (Image : Type) (pipeFn : PipeArgs → Int → Image × Int)
       (classify : Image → Bool) (p : PredictInputs) (b1 b2 : Nat),
       p.aspect_ratio ∉ aspectRatioChoices →
       runPredict pipeFn classify p b1 b2 = .error .validationError) := by
  refine ⟨by decide, ?_, ?_⟩
  · intro s hs
    exact aspect_lookup_none_of_not_mem hs
  · intro Image pipeFn classify p b1 b2 hs
    unfold runPredict
    rw [validRequest_false_of_bad_aspect hs]
    rfl

/-- Witness for C1 at the unsupported string `7:3`. -/
theorem aspect_ratio_table_correct_witness :
    aspect_ratio_to_width_height "7:3" = none ∧
    runPredict (fun (_ : PipeArgs) (st : Int) => ((0 : Nat), st))
      (fun _ => false)
      ⟨"p", "7:3", 1, 28, 7 / 2, some 42, "webp", 80, none, 4 / 5, false⟩ 0 0 =
      .error .validationError :=
  ⟨aspect_ratio_table_correct.2.1 "7:3" (by decide),
   aspect_ratio_table_correct.2.2 Nat _ _ _ 0 0 (by decide)⟩

/-- C2: the adapter resolver tries the three reference rules in source
order.  A reference matching the `owner/name` registry rule can match
neither URL rule (its characters exclude the `:` every URL rule demands),
so it always resolves via the registry path; a `huggingface.co` URL is
handled by rule 2; a weight-file or delivery-archive URL not matching
rule 2 is handled by rule 3; and a reference matching none of the rules
produces the validation failure, whose message names the `hf_lora`
parameter, and selects an action that touches no network. -/
theorem hf_lora_dispatch (s : String) :
    (matchR1 s = true →
       resolveHfLora (some s) = .loadRegistry s ∧
       matchR2 s = false ∧ matchR3a s = false ∧ matchR3b s = false) ∧
    (matchR1 s = false → matchR2 s = true →
       resolveHfLora (some s) =
         (match hfUrlSlug s with
          | some slug => .loadHfUrl slug (weight_name s)
          | none => .attributeErrorCrash)) ∧
    (matchR1 s = false → matchR2 s = false →
       (matchR3a s = true ∨ matchR3b s = true) →
       resolveHfLora (some s) = .downloadUrl s (file_extension s)) ∧
    (matchR1 s = false → matchR2 s = false → matchR3a s = false →
       matchR3b s = false →
       resolveHfLora (some s) = .invalid invalidLoraMsg ∧
       loraActionTouchesNetwork (resolveHfLora (some s)) = false ∧
       containsSub "hf_lora".data invalidLoraMsg.data = true) := by
  refine ⟨?_, ?_, ?_, ?_⟩
  · intro h1
    refine ⟨?_, matchR1_not_url h1⟩
    simp [resolveHfLora, h1]
  · intro h1 h2
    simp [resolveHfLora, h1, h2]
  · intro h1 h2 h3
    have h3' : (matchR3a s || matchR3b s) = true := by
      rcases h3 with h3 | h3 <;> simp [h3]
    simp [resolveHfLora, h1, h2, h3']
  · intro h1 h2 h3 h4
    have hres : resolveHfLora (some s) = .invalid invalidLoraMsg := by
      simp [resolveHfLora, h1, h2, h3, h4]
    exact ⟨hres, by rw [hres]; rfl, by decide⟩

/-- Witness for C2 at the registry slug `alvdansen/frosting_lane_flux`
and, through the last conjunct, at the invalid reference `not a url`. -/
theorem hf_lora_dispatch_witness :
    (resolveHfLora (some "alvdansen/frosting_lane_flux") =
       .loadRegistry "alvdansen/frosting_lane_flux" ∧
     matchR2 "alvdansen/frosting_lane_flux" = false ∧
     matchR3a "alvdansen/frosting_lane_flux" = false ∧
     matchR3b "alvdansen/frosting_lane_flux" = false) ∧
    (resolveHfLora (some "not a url") = .invalid invalidLoraMsg ∧
     loraActionTouchesNetwork (resolveHfLora (some "not a url")) = false ∧
     containsSub "hf_lora".data invalidLoraMsg.data = true) :=
  ⟨(hf_lora_dispatch "alvdansen/frosting_lane_flux").1 (by decide),
   (hf_lora_dispatch "not a url").2.2.2 (by decide) (by decide) (by decide)
     (by decide)⟩


/-- C3: when the safety filter is enabled and the classifier flags every
generated image of the request, the request ends in the explicit
all-outputs-filtered error, and the filter/save loop writes no file at
all. -/
theorem all_filtered_raises {Image : Type} (pipeFn : PipeArgs → Int → Image × Int)
    (classify : Image → Bool) (p : PredictInputs) (b1 b2 : Nat) (w h : Nat)
    (hv : validRequest p = true)
    (hwh : aspect_ratio_to_width_height p.aspect_ratio = some (w, h))
    (hl : loraActionIsError (resolveHfLora p.hf_lora) = false)
    (hd : p.disable_safety_checker = false)
    (hall : ∀ img ∈ genImages pipeFn (predictPipeArgs p w h) p.num_outputs
        (effectiveSeed p.seed b1 b2), classify img = true) :
    runPredict pipeFn classify p b1 b2 = .error .allFiltered ∧
    filterAndSave classify p.disable_safety_checker p.output_format
      p.output_quality
      (genImages pipeFn (predictPipeArgs p w h) p.num_outputs
        (effectiveSeed p.seed b1 b2)) 0 = [] := by
  have hempty : filterAndSave classify p.disable_safety_checker p.output_format
      p.output_quality
      (genImages pipeFn (predictPipeArgs p w h) p.num_outputs
        (effectiveSeed p.seed b1 b2)) 0 = [] := by
    rw [hd]
    exact filterAndSave_all_flagged classify p.output_format p.output_quality _ 0 hall
  refine ⟨?_, hempty⟩
  rw [runPredict_happy pipeFn classify p b1 b2 w h hv hwh hl, hempty]
  rfl

/-- Witness for C3: one output, an always-flagging classifier, default
parameters; the request fails with the all-filtered error and writes
nothing. -/
theorem all_filtered_raises_witness :
    runPredict (fun (_ : PipeArgs) (st : Int) => ((0 : Nat), st + 1))
      (fun _ => true)
      ⟨"p", "1:1", 1, 28, 3, some 0, "webp", 80, none, 1, false⟩ 0 0 =
      .error .allFiltered :=
  (all_filtered_raises (fun (_ : PipeArgs) (st : Int) => ((0 : Nat), st + 1))
    (fun _ => true)
    ⟨"p", "1:1", 1, 28, 3, some 0, "webp", 80, none, 1, false⟩ 0 0
    1024 1024 (by decide) (by decide) (by decide) rfl
    (fun img _ => rfl)).1

/-- C4: with the safety filter disabled a valid request yields exactly
`num_outputs` files, whose paths enumerate the indices `0, 1, ...` in
order; with any classifier outcome, a request that succeeds yields at
most `num_outputs` files, and the path of the `j`-th yielded file carries
index `j` — the accepted-image count, not the generation index — so
flagged images consume no filename slot and the indices have no gaps. -/
theorem output_naming {Image : Type} (pipeFn : PipeArgs → Int → Image × Int)
    (classify : Image → Bool) (p : PredictInputs) (b1 b2 : Nat) (w h : Nat)
    (hv : validRequest p = true)
    (hwh : aspect_ratio_to_width_height p.aspect_ratio = some (w, h))
    (hl : loraActionIsError (resolveHfLora p.hf_lora) = false) :
    (p.disable_safety_checker = true →
       ∃ outs : List (OutFile Image),
         runPredict pipeFn classify p b1 b2 = .ok outs ∧
         outs.length = p.num_outputs ∧
         outs.map OutFile.path =
           (List.range p.num_outputs).map (fun j => outPath p.output_format j)) ∧
    (∀ outs : List (OutFile Image),
       runPredict pipeFn classify p b1 b2 = .ok outs →
       outs.length ≤ p.num_outputs ∧
       outs.map OutFile.path =
         (List.range outs.length).map (fun j => outPath p.output_format j)) := by
  have hzero : ∀ L : List (OutFile Image),
      L.map OutFile.path =
        (List.range L.length).map (fun j => outPath p.output_format (0 + j)) →
      L.map OutFile.path =
        (List.range L.length).map (fun j => outPath p.output_format j) := by
    intro L hL
    rw [hL]
    apply List.map_congr_left
    intro j _
    rw [Nat.zero_add]
  have hN : 1 ≤ p.num_outputs := by
    unfold validRequest at hv
    simp only [Bool.and_eq_true, decide_eq_true_eq] at hv
    exact hv.1.1.1.1.1.1.1.1.1.2
  have hpaths := filterAndSave_paths classify p.disable_safety_checker
    p.output_format p.output_quality
    (genImages pipeFn (predictPipeArgs p w h) p.num_outputs
      (effectiveSeed p.seed b1 b2)) 0
  have hle : (filterAndSave classify p.disable_safety_checker p.output_format
      p.output_quality
      (genImages pipeFn (predictPipeArgs p w h) p.num_outputs
        (effectiveSeed p.seed b1 b2)) 0).length ≤ p.num_outputs := by
    calc (filterAndSave classify p.disable_safety_checker p.output_format
          p.output_quality
          (genImages pipeFn (predictPipeArgs p w h) p.num_outputs
            (effectiveSeed p.seed b1 b2)) 0).length
        ≤ (genImages pipeFn (predictPipeArgs p w h) p.num_outputs
            (effectiveSeed p.seed b1 b2)).length :=
          filterAndSave_length_le classify p.disable_safety_checker
            p.output_format p.output_quality _ 0
      _ = p.num_outputs := genImages_length pipeFn _ _ _
  rw [runPredict_happy pipeFn classify p b1 b2 w h hv hwh hl]
  constructor
  · intro hd
    have hlen : (filterAndSave classify p.disable_safety_checker p.output_format
        p.output_quality
        (genImages pipeFn (predictPipeArgs p w h) p.num_outputs
          (effectiveSeed p.seed b1 b2)) 0).length = p.num_outputs := by
      rw [hd, filterAndSave_disabled_length, genImages_length]
    have hne : (filterAndSave classify p.disable_safety_checker p.output_format
        p.output_quality
        (genImages pipeFn (predictPipeArgs p w h) p.num_outputs
          (effectiveSeed p.seed b1 b2)) 0).isEmpty = false := by
      cases hmt : (filterAndSave classify p.disable_safety_checker p.output_format
          p.output_quality
          (genImages pipeFn (predictPipeArgs p w h) p.num_outputs
            (effectiveSeed p.seed b1 b2)) 0).isEmpty
      · rfl
      · exfalso
        rw [List.isEmpty_iff] at hmt
        rw [hmt] at hlen
        simp only [List.length_nil] at hlen
        omega
    rw [hne]
    refine ⟨filterAndSave classify p.disable_safety_checker p.output_format
        p.output_quality
        (genImages pipeFn (predictPipeArgs p w h) p.num_outputs
          (effectiveSeed p.seed b1 b2)) 0, by simp, hlen, ?_⟩
    conv_rhs => rw [← hlen]
    exact hzero _ hpaths
  · intro outs hok
    by_cases hmt : (filterAndSave classify p.disable_safety_checker p.output_format
        p.output_quality
        (genImages pipeFn (predictPipeArgs p w h) p.num_outputs
          (effectiveSeed p.seed b1 b2)) 0).isEmpty = true
    · rw [hmt] at hok
      simp at hok
    · rw [Bool.not_eq_true] at hmt
      rw [hmt] at hok
      simp only [Bool.false_eq_true, if_false, Except.ok.injEq] at hok
      subst hok
      exact ⟨hle, hzero _ hpaths⟩

/-- Witness for C4: two outputs with the safety checker disabled yield
exactly the files `/tmp/out-0.webp` and `/tmp/out-1.webp`. -/
theorem output_naming_witness :
    ∃ outs : List (OutFile Nat),
      runPredict (fun (_ : PipeArgs) (st : Int) => ((0 : Nat), st + 1))
        (fun _ => false)
        ⟨"p", "1:1", 2, 28, 3, some 0, "webp", 80, none, 1, true⟩ 0 0 = .ok outs ∧
      outs.length = 2 ∧
      outs.map OutFile.path =
        (List.range 2).map (fun j => outPath "webp" j) :=
  (output_naming (fun (_ : PipeArgs) (st : Int) => ((0 : Nat), st + 1))
    (fun _ => false)
    ⟨"p", "1:1", 2, 28, 3, some 0, "webp", 80, none, 1, true⟩ 0 0
    1024 1024 (by decide) (by decide) (by decide)).1 rfl

/-- C5 counterexample: a request that attaches the adapter
`alvdansen/frosting_lane_flux` and then suffers an exception escaping the
generation loop ends with the adapter still attached — the unconditional
detachment the claim asserts for the mid-loop-error case does not hold. -/
theorem adapter_detach_counterexample :
    (requestAdapterTrace none (some "alvdansen/frosting_lane_flux") true true
        false).2 = .errGen ∧
    (requestAdapterTrace none (some "alvdansen/frosting_lane_flux") true true
        false).1 ≠ none := by
  decide

/-- C5 amended: the pipeline handle holds at most one adapter; after a
request that runs its loop to the end — whether it returns outputs or
raises the all-filtered error — the adapter is detached, and a request
with no adapter reference unloads any previously attached adapter before
generating; but a request whose generation raises mid-loop is not
guaranteed to detach an adapter it loaded. -/
theorem adapter_detach_amended (prev : Option String) (hf : Option String)
    (loadOk genRaises allFlagged : Bool) :
    ((requestAdapterTrace prev hf loadOk genRaises allFlagged).2 = .ok ∨
       (requestAdapterTrace prev hf loadOk genRaises allFlagged).2 =
         .errAllFiltered →
     (requestAdapterTrace prev hf loadOk genRaises allFlagged).1 = none) ∧
    (hf = none →
     (requestAdapterTrace prev hf loadOk genRaises allFlagged).1 = none) := by
  cases hf with
  | none =>
    cases genRaises <;> cases allFlagged <;> simp [requestAdapterTrace]
  | some s =>
    cases loadOk <;> cases genRaises <;> cases allFlagged <;>
      simp [requestAdapterTrace]

/-- Witness for C5 (amended) at a request whose images are all filtered:
the adapter is detached even on that failing path. -/
theorem adapter_detach_amended_witness :
    (requestAdapterTrace none (some "a/b") true false true).1 = none :=
  (adapter_detach_amended none (some "a/b") true false true).1
    (Or.inr (by decide))

/-- C6: with an explicit seed, the whole request result is a function of
the request parameters alone — two runs with the same parameters and the
same seed agree, whatever bytes the process random source would have
produced; with the seed omitted, the effective seed is exactly the value
derived from the two process-random bytes. -/
theorem seed_determinism {Image : Type} (pipeFn : PipeArgs → Int → Image × Int)
    (classify : Image → Bool) (p : PredictInputs) (s : Int)
    (b1 b2 b1' b2' : Nat) (hs : p.seed = some s) :
    runPredict pipeFn classify p b1 b2 = runPredict pipeFn classify p b1' b2' ∧
    ∀ c1 c2 : Nat, effectiveSeed none c1 c2 = (int_from_bytes_big c1 c2 : Nat) := by
  constructor
  · unfold runPredict
    rw [hs]
    rfl
  · intro c1 c2
    rfl

/-- Witness for C6: the same request with seed 42 gives the same result
under two different draws of the process random source. -/
theorem seed_determinism_witness :
    runPredict (fun (_ : PipeArgs) (st : Int) => ((0 : Nat), st + 1))
      (fun _ => false)
      ⟨"p", "1:1", 1, 28, 3, some 42, "webp", 80, none, 1, false⟩ 7 9 =
    runPredict (fun (_ : PipeArgs) (st : Int) => ((0 : Nat), st + 1))
      (fun _ => false)
      ⟨"p", "1:1", 1, 28, 3, some 42, "webp", 80, none, 1, false⟩ 200 13 :=
  (seed_determinism (fun (_ : PipeArgs) (st : Int) => ((0 : Nat), st + 1))
    (fun _ => false)
    ⟨"p", "1:1", 1, 28, 3, some 42, "webp", 80, none, 1, false⟩ 42 7 9 200 13
    rfl).1

/-- C7: the `png` branch of the save step takes no quality argument, so
the written file is independent of the requested quality; the lossy
branches (`webp`, `jpg`) record the requested quality and the
`optimize=True` flag in the save call. -/
theorem save_quality_by_format {Image : Type} (img : Image) (q1 q2 q : Nat)
    (fmt : String) (hf : fmt = "webp" ∨ fmt = "jpg") :
    saveImage img "png" q1 = saveImage img "png" q2 ∧
    saveImage img "png" q1 = .losslessFile img ∧
    saveImage img fmt q = .lossyFile img q true := by
  refine ⟨?_, ?_, ?_⟩
  · rfl
  · rfl
  · rcases hf with rfl | rfl <;> rfl

/-- Witness for C7 at `webp` and two different quality values. -/
theorem save_quality_by_format_witness :
    saveImage (0 : Nat) "png" 80 = saveImage (0 : Nat) "png" 10 ∧
    saveImage (0 : Nat) "png" 80 = .losslessFile 0 ∧
    saveImage (0 : Nat) "webp" 80 = .lossyFile 0 80 true :=
  save_quality_by_format 0 80 10 80 "webp" (Or.inl rfl)

/-- C8: the weight provisioner downloads and unpacks exactly when the
destination does not already exist (an existing destination is a no-op),
fails with the download tool's non-zero exit code as a transfer error,
and never consults a second attempt: its outcome depends only on the
first invocation of the tool. -/
theorem provisioner_contract (destExists : Bool) (attempts : Nat → Nat) :
    (destExists = true →
       ensure_weights destExists attempts = .ok .skippedExisting) ∧
    (destExists = false → attempts 0 = 0 →
       ensure_weights destExists attempts = .ok .downloadedFresh) ∧
    (destExists = false → attempts 0 ≠ 0 →
       ensure_weights destExists attempts = .error (attempts 0)) ∧
    (∀ attempts2 : Nat → Nat, attempts 0 = attempts2 0 →
       ensure_weights destExists attempts = ensure_weights destExists attempts2) := by
  refine ⟨?_, ?_, ?_, ?_⟩
  · intro hd
    rw [hd]
    rfl
  · intro hd h0
    rw [hd]
    simp [ensure_weights, download_weights, h0]
  · intro hd h0
    rw [hd]
    simp [ensure_weights, download_weights, h0]
  · intro attempts2 heq
    unfold ensure_weights download_weights
    rw [heq]

/-- Witness for C8: an absent destination with a failing first download
attempt yields the transfer error carrying the exit code. -/
theorem provisioner_contract_witness :
    ensure_weights false (fun _ => 3) = .error 3 ∧
    ensure_weights true (fun _ => 3) = .ok .skippedExisting :=
  ⟨(provisioner_contract false (fun _ => 3)).2.2.1 rfl (by decide),
   (provisioner_contract true (fun _ => 3)).1 rfl⟩

/-- C9: with the seed omitted, the fallback is built from exactly the two
process-random bytes, so it lies between 0 and 65535 inclusive; an
explicit seed is used unchanged. -/
theorem fallback_seed_range (b1 b2 : Nat) (s : Int)
    (h1 : b1 < 256) (h2 : b2 < 256) :
    0 ≤ effectiveSeed none b1 b2 ∧ effectiveSeed none b1 b2 ≤ 65535 ∧
    effectiveSeed (some s) b1 b2 = s := by
  refine ⟨?_, ?_, rfl⟩
  · simp only [effectiveSeed]
    exact Int.natCast_nonneg _
  · simp only [effectiveSeed, int_from_bytes_big]
    omega

/-- Witness for C9 at the maximal byte values. -/
theorem fallback_seed_range_witness :
    0 ≤ effectiveSeed none 255 255 ∧ effectiveSeed none 255 255 ≤ 65535 ∧
    effectiveSeed (some 7) 255 255 = 7 :=
  fallback_seed_range 255 255 7 (by decide) (by decide)

/-- C10: a request with an adapter reference whose load succeeded and
whose images are all flagged reaches the unload at lines 218-219 before
the `safe_images_count == 0` raise: it ends with no adapter attached and
with the all-filtered error as its outcome. -/
theorem unload_precedes_all_filtered (prev : Option String) (s : String) :
    requestAdapterTrace prev (some s) true false true =
      (none, .errAllFiltered) := by
  rfl
